import Mathlib

/-
Verification of the payment-gated session lifecycle core of a decentralized
VPN node: the Hermes channel repository (balance reconciliation, earnings
change events) and the session manager (admission against the current
proposal, session storage, balance-tracker wiring).

The repository slice under inspection ships only the unit tests of these
components; the component implementations themselves are modelled from the
specification, definition by definition, as noted in their doc comments.
Monetary amounts are arbitrary-precision integers in the source (big.Int),
embedded here as Int.
-/

namespace NodeCore

/-- Identities are opaque address strings (identity.Identity). -/
abbrev Identity := String

/-- Hermes (payment hub) identifiers are opaque address strings (common.Address). -/
abbrev HermesAddress := String

/-- Collaborator errors are opaque; modelled as their message strings. -/
abbrev Err := String

/-- On-chain provider channel state (client.ProviderChannel): non-negative
amounts Balance, Settled, Stake for a (provider identity, hermes) pair. -/
structure ProviderChannel where
  Balance : Int
  Settled : Int
  Stake : Int
deriving DecidableEq, Repr

/-- Off-chain signed payment promise (HermesPromise); only its Amount matters
to balance reconciliation. -/
structure HermesPromise where
  Amount : Int
deriving DecidableEq, Repr

/-- Modelled from the spec: the derived in-memory snapshot HermesChannel
(src/ holds only its tests). Holds the identity pair, the on-chain channel
state and the promise; an absent promise is represented by Amount 0. -/
structure HermesChannel where
  identity : Identity
  hermesID : HermesAddress
  Channel : ProviderChannel
  promise : HermesPromise
deriving DecidableEq, Repr

/-- Modelled from the spec: NewHermesChannel constructor, packing the two
external reads into the snapshot. -/
def NewHermesChannel (id : Identity) (hermesID : HermesAddress)
    (channel : ProviderChannel) (promise : HermesPromise) : HermesChannel :=
  { identity := id, hermesID := hermesID, Channel := channel, promise := promise }

/-- Modelled from the spec: availableBalance() = Balance + Settled
(gross entitlement, promise-independent). -/
def HermesChannel.availableBalance (hc : HermesChannel) : Int :=
  hc.Channel.Balance + hc.Channel.Settled

/-- Modelled from the spec: balance() = availableBalance() - promise Amount
(net of what has already been promised away). -/
def HermesChannel.balance (hc : HermesChannel) : Int :=
  hc.availableBalance - hc.promise.Amount

/-- Modelled from the spec: lifetimeBalance() as used in the earnings event
payload, the net figure channel.balance(). -/
def HermesChannel.lifetimeBalance (hc : HermesChannel) : Int :=
  hc.balance

/-- Modelled from the spec: unsettledBalance() as used in the earnings event
payload, the gross figure channel.availableBalance(). -/
def HermesChannel.unsettledBalance (hc : HermesChannel) : Int :=
  hc.availableBalance

/-- Earnings snapshot pair (event.Earnings), used purely for change
detection. -/
structure Earnings where
  LifetimeBalance : Int
  UnsettledBalance : Int
deriving DecidableEq, Repr

/-- The zero Earnings value, used as Previous before any fetch. -/
def Earnings.zero : Earnings :=
  { LifetimeBalance := 0, UnsettledBalance := 0 }

/-- Earnings-change event payload (event.AppEventEarningsChanged). -/
structure AppEventEarningsChanged where
  Identity : Identity
  Previous : Earnings
  Current : Earnings
deriving DecidableEq, Repr

/-- Outcome of the Hermes-promise storage collaborator: a promise, the
expected-absence report (ErrNotFound), or any other failure. -/
inductive PromiseResult where
  | found (p : HermesPromise)
  | notFound
  | failure (e : Err)
deriving DecidableEq, Repr

/-- Errors returned by Fetch, wrapped with the identities involved. -/
inductive FetchError where
  | channelError (id : Identity) (hermesID : HermesAddress) (e : Err)
  | promiseError (id : Identity) (hermesID : HermesAddress) (e : Err)
deriving DecidableEq, Repr

/-- Cache key of the per-pair Earnings cache. -/
abbrev CacheKey := Identity × HermesAddress

/-- Lookup in the per-pair Earnings cache (first match wins). -/
def cacheFind : List (CacheKey × Earnings) → CacheKey → Option Earnings
  | [], _ => none
  | (k, e) :: rest, key => if k = key then some e else cacheFind rest key

/-- Cached Previous Earnings for a key, zero when absent. -/
def cacheGet (cache : List (CacheKey × Earnings)) (key : CacheKey) : Earnings :=
  (cacheFind cache key).getD Earnings.zero

/-- Observable state of a HermesChannelRepository instance: the per-pair
Earnings cache and the ordered log of events published to the Event Bus. -/
structure RepoState where
  cache : List (CacheKey × Earnings)
  published : List AppEventEarningsChanged
deriving DecidableEq, Repr

/-- The repository's injected collaborators: the provider-channel-status
provider and the Hermes-promise storage, each read fresh on every Fetch. -/
structure HermesChannelRepository where
  channelProvider : Identity → HermesAddress → Except Err ProviderChannel
  promiseProvider : Identity → HermesAddress → PromiseResult

/-- The Earnings pair derived from a fetched channel:
LifetimeBalance = balance(), UnsettledBalance = availableBalance(). -/
def earningsOf (hc : HermesChannel) : Earnings :=
  { LifetimeBalance := hc.balance, UnsettledBalance := hc.availableBalance }

/-- Modelled from the spec: HermesChannelRepository.Fetch (src/ holds only
its tests). Reads channel status, then the promise (NotFound normalized to
Amount 0, other failures wrapped and propagated with the state untouched),
builds the channel, publishes the Previous/Current earnings event
unconditionally, then overwrites the cache entry with Current. -/
def HermesChannelRepository.Fetch (repo : HermesChannelRepository) (st : RepoState)
    (id : Identity) (hermesID : HermesAddress) :
    Except FetchError HermesChannel × RepoState :=
  match repo.channelProvider id hermesID with
  | Except.error e => (Except.error (FetchError.channelError id hermesID e), st)
  | Except.ok channel =>
    match repo.promiseProvider id hermesID with
    | PromiseResult.failure e => (Except.error (FetchError.promiseError id hermesID e), st)
    | PromiseResult.notFound =>
      let hc := NewHermesChannel id hermesID channel { Amount := 0 }
      let current := earningsOf hc
      let previous := cacheGet st.cache (id, hermesID)
      let ev : AppEventEarningsChanged :=
        { Identity := id, Previous := previous, Current := current }
      (Except.ok hc,
        { cache := ((id, hermesID), current) :: st.cache,
          published := st.published ++ [ev] })
    | PromiseResult.found p =>
      let hc := NewHermesChannel id hermesID channel p
      let current := earningsOf hc
      let previous := cacheGet st.cache (id, hermesID)
      let ev : AppEventEarningsChanged :=
        { Identity := id, Previous := previous, Current := current }
      (Except.ok hc,
        { cache := ((id, hermesID), current) :: st.cache,
          published := st.published ++ [ev] })

/-- The currently advertised service proposal (market.ServiceProposal);
only its ID takes part in admission. -/
structure ServiceProposal where
  ID : Int
deriving DecidableEq, Repr

/-- Session identifiers (session.ID) are opaque strings produced by the
injected generator. -/
abbrev SessionID := String

/-- Modelled from the spec: the Session record (src/ holds only its tests).
Done in the source is a one-shot completion channel; its observable state is
whether the completion signal has fired, embedded as DoneClosed. -/
structure Session where
  ID : SessionID
  ConsumerID : Identity
  DoneClosed : Bool
deriving DecidableEq, Repr

/-- The zero-value Session (Session{} in the source): empty ID, zero
consumer identity, completion signal not fired. -/
def Session.zeroValue : Session :=
  { ID := "", ConsumerID := "", DoneClosed := false }

/-- The balance-tracker capability bound to one session, reduced to its
observable contract: the error its Start() returns immediately, if any
(none models a Start that keeps watching). -/
structure BalanceTracker where
  startErr : Option Err
deriving DecidableEq, Repr

/-- Errors Manager.Create can return: the admission error, an ID-generation
failure propagated verbatim, or a tracker-construction failure. -/
inductive CreateErr where
  | invalidProposal
  | idGenerationError (e : Err)
  | trackerFactoryError (e : Err)
deriving DecidableEq, Repr

/-- The admission error returned on a proposal-ID mismatch. -/
def ErrorInvalidProposal : CreateErr :=
  CreateErr.invalidProposal

/-- The session store collaborator, keyed put/get by session ID. -/
abbrev SessionStore := List (SessionID × Session)

/-- Keyed get from the session store (first match wins). -/
def storeGet : SessionStore → SessionID → Option Session
  | [], _ => none
  | (k, s) :: rest, id => if k = id then some s else storeGet rest id

/-- Keyed put into the session store. -/
def storePut (store : SessionStore) (id : SessionID) (s : Session) : SessionStore :=
  (id, s) :: store

/-- A send on the unbuffered last-session-shutdown channel: it completes
only when a receiver is waiting; none models a send that blocks forever. -/
def chanSend (receiverWaiting : Bool) : Option Unit :=
  if receiverWaiting then some () else none

/-- Modelled from the spec: the shutdown broadcast performed by Create,
a select with a default branch around chanSend — deliver when a receiver
waits, otherwise skip without blocking. Returns whether it delivered. -/
def trySendShutdown (receiverWaiting : Bool) : Option Bool :=
  match chanSend receiverWaiting with
  | some _ => some true
  | none => some false

/-- The session Manager with its injected collaborators: the current
proposal, the session-ID generator outcome, and the balance-tracker
factory. -/
structure Manager where
  currentProposal : ServiceProposal
  generateID : Except Err SessionID
  trackerFactory : Identity → Identity → Identity → Except Err BalanceTracker

/-- What one Manager.Create call returns and effects: the (session, error)
pair, the session store afterwards, and whether the ID generator was
invoked. -/
structure CreateOutcome where
  session : Session
  err : Option CreateErr
  store : SessionStore
  idConsumed : Bool
deriving DecidableEq, Repr

/-- Modelled from the spec: Manager.Create (src/ holds only its tests).
Validates the proposal ID (mismatch: ErrorInvalidProposal, zero Session, no
other side effect), invokes the ID generator (failure propagated verbatim),
invokes the tracker factory with (consumerID, providerID, consumerID) and
starts the tracker concurrently — an immediate Start failure fires the
session's Done, never Create's error —, broadcasts the last-session-shutdown
signal without blocking, stores the session by ID and returns it. The
overall Option is none only if some internal channel operation blocked
forever. -/
def Manager.Create (m : Manager) (store : SessionStore)
    (consumerID providerID : Identity) (proposalID : Int)
    (receiverWaiting : Bool) : Option CreateOutcome :=
  if proposalID = m.currentProposal.ID then
    match m.generateID with
    | Except.error e =>
      some { session := Session.zeroValue, err := some (CreateErr.idGenerationError e),
             store := store, idConsumed := true }
    | Except.ok newID =>
      match m.trackerFactory consumerID providerID consumerID with
      | Except.error e =>
        some { session := Session.zeroValue, err := some (CreateErr.trackerFactoryError e),
               store := store, idConsumed := true }
      | Except.ok tracker =>
        let s : Session :=
          { ID := newID, ConsumerID := consumerID, DoneClosed := tracker.startErr.isSome }
        match trySendShutdown receiverWaiting with
        | none => none
        | some _ =>
          some { session := s, err := none, store := storePut store newID s,
                 idConsumed := true }
  else
    some { session := Session.zeroValue, err := some ErrorInvalidProposal,
           store := store, idConsumed := false }

/-! ## Shared helper lemmas -/

/-- A successful Fetch appends exactly the Previous/Current event for its key
to the publish log and pushes the Current earnings onto the cache. -/
theorem fetch_ok_effects (repo : HermesChannelRepository) (st : RepoState)
    (id : Identity) (hermesID : HermesAddress) (hc : HermesChannel) (st' : RepoState)
    (h : repo.Fetch st id hermesID = (Except.ok hc, st')) :
    st'.published = st.published ++
      [{ Identity := id, Previous := cacheGet st.cache (id, hermesID),
         Current := earningsOf hc }] ∧
    st'.cache = ((id, hermesID), earningsOf hc) :: st.cache := by
  unfold HermesChannelRepository.Fetch at h
  cases hcp : repo.channelProvider id hermesID with
  | error e => rw [hcp] at h; simp at h
  | ok channel =>
    rw [hcp] at h
    cases hpp : repo.promiseProvider id hermesID with
    | failure e => rw [hpp] at h; simp at h
    | notFound =>
      rw [hpp] at h
      simp only [Prod.mk.injEq, Except.ok.injEq] at h
      obtain ⟨h1, h2⟩ := h
      subst h2
      subst h1
      exact ⟨rfl, rfl⟩
    | found p =>
      rw [hpp] at h
      simp only [Prod.mk.injEq, Except.ok.injEq] at h
      obtain ⟨h1, h2⟩ := h
      subst h2
      subst h1
      exact ⟨rfl, rfl⟩

/-! ## Claim theorems: Hermes channel repository -/

/-- C3: for non-negative Balance, Settled and promise Amount, a HermesChannel
built from them satisfies availableBalance() = Balance + Settled and
balance() = Balance + Settled - Amount; and when the promise lookup reports
NotFound, a successful Fetch yields a channel whose Amount is 0, so
balance() = availableBalance(). -/
theorem hermes_channel_balance_formulas (id : Identity) (hermesID : HermesAddress)
    (B S K A : Int) (_hB : 0 ≤ B) (_hS : 0 ≤ S) (_hA : 0 ≤ A) :
    (NewHermesChannel id hermesID ⟨B, S, K⟩ ⟨A⟩).availableBalance = B + S ∧
    (NewHermesChannel id hermesID ⟨B, S, K⟩ ⟨A⟩).balance = B + S - A ∧
    ∀ (repo : HermesChannelRepository) (st : RepoState) (hc : HermesChannel)
      (st' : RepoState),
      repo.promiseProvider id hermesID = PromiseResult.notFound →
      repo.Fetch st id hermesID = (Except.ok hc, st') →
      hc.promise.Amount = 0 ∧ hc.balance = hc.availableBalance := by
  refine ⟨rfl, rfl, ?_⟩
  intro repo st hc st' hnp h
  unfold HermesChannelRepository.Fetch at h
  cases hcp : repo.channelProvider id hermesID with
  | error e => rw [hcp] at h; simp at h
  | ok channel =>
    rw [hcp, hnp] at h
    simp only [Prod.mk.injEq, Except.ok.injEq] at h
    obtain ⟨h1, _⟩ := h
    subst h1
    exact ⟨rfl, by
      simp [NewHermesChannel, HermesChannel.balance, HermesChannel.availableBalance]⟩

/-- Witness for C3 at the spec scenario: Balance 1000000000000, Settled
9000000, promise Amount 7000000. -/
theorem hermes_channel_balance_formulas_witness :
    (NewHermesChannel "0x01" "0x02" ⟨1000000000000, 9000000, 12312323⟩
        ⟨7000000⟩).availableBalance = 1000000000000 + 9000000 ∧
    (NewHermesChannel "0x01" "0x02" ⟨1000000000000, 9000000, 12312323⟩
        ⟨7000000⟩).balance = 1000000000000 + 9000000 - 7000000 ∧
    ∀ (repo : HermesChannelRepository) (st : RepoState) (hc : HermesChannel)
      (st' : RepoState),
      repo.promiseProvider "0x01" "0x02" = PromiseResult.notFound →
      repo.Fetch st "0x01" "0x02" = (Except.ok hc, st') →
      hc.promise.Amount = 0 ∧ hc.balance = hc.availableBalance :=
  hermes_channel_balance_formulas "0x01" "0x02" 1000000000000 9000000 12312323
    7000000 (by decide) (by decide) (by decide)

/-- C9: with non-negative Balance, Settled and Amount the invariant
balance() <= availableBalance() holds, and both values are non-negative
whenever Amount <= Balance + Settled. -/
theorem hermes_channel_invariant (id : Identity) (hermesID : HermesAddress)
    (B S K A : Int) (hB : 0 ≤ B) (hS : 0 ≤ S) (hA : 0 ≤ A) :
    (NewHermesChannel id hermesID ⟨B, S, K⟩ ⟨A⟩).balance ≤
      (NewHermesChannel id hermesID ⟨B, S, K⟩ ⟨A⟩).availableBalance ∧
    (A ≤ B + S →
      0 ≤ (NewHermesChannel id hermesID ⟨B, S, K⟩ ⟨A⟩).balance ∧
      0 ≤ (NewHermesChannel id hermesID ⟨B, S, K⟩ ⟨A⟩).availableBalance) := by
  simp only [NewHermesChannel, HermesChannel.balance, HermesChannel.availableBalance]
  omega

/-- Witness for C9 at the spec scenario values. -/
theorem hermes_channel_invariant_witness :
    (NewHermesChannel "0x01" "0x02" ⟨1000000000000, 9000000, 12312323⟩
        ⟨7000000⟩).balance ≤
      (NewHermesChannel "0x01" "0x02" ⟨1000000000000, 9000000, 12312323⟩
        ⟨7000000⟩).availableBalance ∧
    ((7000000 : Int) ≤ 1000000000000 + 9000000 →
      0 ≤ (NewHermesChannel "0x01" "0x02" ⟨1000000000000, 9000000, 12312323⟩
        ⟨7000000⟩).balance ∧
      0 ≤ (NewHermesChannel "0x01" "0x02" ⟨1000000000000, 9000000, 12312323⟩
        ⟨7000000⟩).availableBalance) :=
  hermes_channel_invariant "0x01" "0x02" 1000000000000 9000000 12312323 7000000
    (by decide) (by decide) (by decide)

/-- C4: when the provider-channel read fails, or the promise lookup fails
with an error other than NotFound, Fetch returns the error wrapped with the
identities involved and the repository state — publish log and cache — is
returned exactly as it was. -/
theorem fetch_error_no_side_effects (repo : HermesChannelRepository)
    (st : RepoState) (id : Identity) (hermesID : HermesAddress) :
    (∀ e, repo.channelProvider id hermesID = Except.error e →
      repo.Fetch st id hermesID =
        (Except.error (FetchError.channelError id hermesID e), st)) ∧
    (∀ channel e, repo.channelProvider id hermesID = Except.ok channel →
      repo.promiseProvider id hermesID = PromiseResult.failure e →
      repo.Fetch st id hermesID =
        (Except.error (FetchError.promiseError id hermesID e), st)) := by
  constructor
  · intro e he
    unfold HermesChannelRepository.Fetch
    rw [he]
  · intro channel e hc hp
    unfold HermesChannelRepository.Fetch
    rw [hc, hp]

/-- A repository whose provider-channel read always fails. -/
def mockFailingChannelRepo : HermesChannelRepository :=
  { channelProvider := fun _ _ => Except.error "mock error",
    promiseProvider := fun _ _ => PromiseResult.notFound }

/-- A repository whose promise lookup always fails with a non-NotFound
error. -/
def mockFailingPromiseRepo : HermesChannelRepository :=
  { channelProvider := fun _ _ => Except.ok ⟨1000000000000, 9000000, 12312323⟩,
    promiseProvider := fun _ _ => PromiseResult.failure "mock error" }

/-- Witness for C4 on concrete failing collaborators with a non-empty
starting state. -/
theorem fetch_error_no_side_effects_witness :
    mockFailingChannelRepo.Fetch ⟨[(("0x01", "0x02"), ⟨1, 2⟩)], []⟩ "0x01" "0x02" =
      (Except.error (FetchError.channelError "0x01" "0x02" "mock error"),
        ⟨[(("0x01", "0x02"), ⟨1, 2⟩)], []⟩) ∧
    mockFailingPromiseRepo.Fetch ⟨[(("0x01", "0x02"), ⟨1, 2⟩)], []⟩ "0x01" "0x02" =
      (Except.error (FetchError.promiseError "0x01" "0x02" "mock error"),
        ⟨[(("0x01", "0x02"), ⟨1, 2⟩)], []⟩) :=
  ⟨(fetch_error_no_side_effects mockFailingChannelRepo
      ⟨[(("0x01", "0x02"), ⟨1, 2⟩)], []⟩ "0x01" "0x02").1 "mock error" rfl,
   (fetch_error_no_side_effects mockFailingPromiseRepo
      ⟨[(("0x01", "0x02"), ⟨1, 2⟩)], []⟩ "0x01" "0x02").2
      ⟨1000000000000, 9000000, 12312323⟩ "mock error" rfl rfl⟩

/-- C6: the Current earnings carried by the event published by a successful
Fetch equals {LifetimeBalance: channel.balance(), UnsettledBalance:
channel.availableBalance()} computed from that fetch's HermesChannel. -/
theorem fetch_event_current_matches_channel (repo : HermesChannelRepository)
    (st : RepoState) (id : Identity) (hermesID : HermesAddress)
    (hc : HermesChannel) (st' : RepoState)
    (h : repo.Fetch st id hermesID = (Except.ok hc, st')) :
    ∃ ev : AppEventEarningsChanged,
      st'.published = st.published ++ [ev] ∧
      ev.Current = { LifetimeBalance := hc.balance,
                     UnsettledBalance := hc.availableBalance } ∧
      ev.Identity = id := by
  obtain ⟨hpub, _⟩ := fetch_ok_effects repo st id hermesID hc st' h
  exact ⟨_, hpub, rfl, rfl⟩

/-- C7: every successful Fetch publishes exactly one {Identity, Previous,
Current} event — unconditionally, also when Previous equals Current — and
the cache entry for the key afterwards holds Current. -/
theorem fetch_publishes_exactly_one_event (repo : HermesChannelRepository)
    (st : RepoState) (id : Identity) (hermesID : HermesAddress)
    (hc : HermesChannel) (st' : RepoState)
    (h : repo.Fetch st id hermesID = (Except.ok hc, st')) :
    st'.published = st.published ++
      [{ Identity := id, Previous := cacheGet st.cache (id, hermesID),
         Current := earningsOf hc }] ∧
    cacheFind st'.cache (id, hermesID) = some (earningsOf hc) := by
  obtain ⟨hpub, hcache⟩ := fetch_ok_effects repo st id hermesID hc st' h
  refine ⟨hpub, ?_⟩
  rw [hcache]
  simp [cacheFind]

/-- A sequence of Fetch calls on one key, one per listed collaborator
reading (the providers may answer differently on each call): the state
after running them all, or none if any call failed. -/
def fetchSeq (id : Identity) (hermesID : HermesAddress) :
    List HermesChannelRepository → RepoState → Option RepoState
  | [], st => some st
  | r :: rs, st =>
    match r.Fetch st id hermesID with
    | (Except.ok _, st1) => fetchSeq id hermesID rs st1
    | (Except.error _, _) => none

/-- The events chain from prev: the first event carries Previous = prev and
every later event carries Previous equal to its predecessor's Current. -/
def chainFrom : Earnings → List AppEventEarningsChanged → Prop
  | _, [] => True
  | prev, ev :: rest => ev.Previous = prev ∧ chainFrom ev.Current rest

/-- The Current of the last event, or prev when no event was published. -/
def lastCurrent : Earnings → List AppEventEarningsChanged → Earnings
  | prev, [] => prev
  | _, ev :: rest => lastCurrent ev.Current rest

/-- A run of successful fetches appends events that chain from the cached
Previous of the starting state, and leaves the last Current in the cache. -/
theorem fetchSeq_chain (rs : List HermesChannelRepository) (st st' : RepoState)
    (id : Identity) (hermesID : HermesAddress)
    (hrun : fetchSeq id hermesID rs st = some st') :
    ∃ evs : List AppEventEarningsChanged,
      st'.published = st.published ++ evs ∧
      chainFrom (cacheGet st.cache (id, hermesID)) evs ∧
      cacheGet st'.cache (id, hermesID) =
        lastCurrent (cacheGet st.cache (id, hermesID)) evs := by
  induction rs generalizing st with
  | nil =>
    simp only [fetchSeq, Option.some.injEq] at hrun
    subst hrun
    exact ⟨[], by simp, trivial, rfl⟩
  | cons r rs ih =>
    unfold fetchSeq at hrun
    split at hrun
    case h_2 => exact absurd hrun (by simp)
    case h_1 c st1 heq =>
      obtain ⟨hpub1, hcache1⟩ := fetch_ok_effects r st id hermesID c st1 heq
      obtain ⟨evs, hpub, hchain, hlast⟩ := ih st1 hrun
      have hc1 : cacheGet st1.cache (id, hermesID) = earningsOf c := by
        rw [hcache1]
        simp [cacheGet, cacheFind]
      refine ⟨⟨id, cacheGet st.cache (id, hermesID), earningsOf c⟩ :: evs, ?_, ?_, ?_⟩
      · rw [hpub, hpub1]
        simp
      · exact ⟨rfl, hc1 ▸ hchain⟩
      · rw [hlast, hc1]
        rfl

/-- C5: for every sequence of successful Fetch calls on one key starting
from a state with no cache entry for that key, the published events chain
from the zero Earnings — the first event's Previous is {0, 0} and each
subsequent event's Previous equals the Current of the event published by
the immediately preceding successful Fetch. -/
theorem fetch_previous_chains (rs : List HermesChannelRepository)
    (st0 stN : RepoState) (id : Identity) (hermesID : HermesAddress)
    (evs : List AppEventEarningsChanged)
    (hfresh : cacheFind st0.cache (id, hermesID) = none)
    (hrun : fetchSeq id hermesID rs st0 = some stN)
    (hevs : stN.published = st0.published ++ evs) :
    chainFrom Earnings.zero evs := by
  obtain ⟨evs0, hpub, hchain, _⟩ := fetchSeq_chain rs st0 stN id hermesID hrun
  have hz : cacheGet st0.cache (id, hermesID) = Earnings.zero := by
    simp [cacheGet, hfresh]
  have hee : evs = evs0 := List.append_cancel_left (hevs.symm.trans hpub)
  rw [hee, ← hz]
  exact hchain

/-- The first mock collaborator pair of the publish test: channel
(1000000000000, 9000000, 12312323), promise 7000000. -/
def mockRepoA : HermesChannelRepository :=
  { channelProvider := fun _ _ => Except.ok ⟨1000000000000, 9000000, 12312323⟩,
    promiseProvider := fun _ _ => PromiseResult.found ⟨7000000⟩ }

/-- The second mock collaborator pair of the publish test: channel
(1000000000001, 9000001, 12312324), promise 8000000. -/
def mockRepoB : HermesChannelRepository :=
  { channelProvider := fun _ _ => Except.ok ⟨1000000000001, 9000001, 12312324⟩,
    promiseProvider := fun _ _ => PromiseResult.found ⟨8000000⟩ }

/-- The channel fetched from mockRepoA. -/
def mockChannelA : HermesChannel :=
  NewHermesChannel "0x01" "0x02" ⟨1000000000000, 9000000, 12312323⟩ ⟨7000000⟩

/-- The channel fetched from mockRepoB. -/
def mockChannelB : HermesChannel :=
  NewHermesChannel "0x01" "0x02" ⟨1000000000001, 9000001, 12312324⟩ ⟨8000000⟩

/-- The event published by the first mock fetch. -/
def mockEventA : AppEventEarningsChanged :=
  { Identity := "0x01", Previous := Earnings.zero, Current := earningsOf mockChannelA }

/-- The event published by the second mock fetch. -/
def mockEventB : AppEventEarningsChanged :=
  { Identity := "0x01", Previous := earningsOf mockChannelA,
    Current := earningsOf mockChannelB }

/-- Repository state after the first mock fetch from the empty state. -/
def mockStateA : RepoState :=
  { cache := [(("0x01", "0x02"), earningsOf mockChannelA)],
    published := [mockEventA] }

/-- Repository state after the second mock fetch. -/
def mockStateB : RepoState :=
  { cache := [(("0x01", "0x02"), earningsOf mockChannelB),
              (("0x01", "0x02"), earningsOf mockChannelA)],
    published := [mockEventA, mockEventB] }

/-- Witness for C5 on the two concrete sequential fetches of the publish
test. -/
theorem fetch_previous_chains_witness :
    chainFrom Earnings.zero [mockEventA, mockEventB] :=
  fetch_previous_chains [mockRepoA, mockRepoB] ⟨[], []⟩ mockStateB
    "0x01" "0x02" [mockEventA, mockEventB] (by rfl) (by rfl) (by rfl)

/-- Witness for C6 on the first concrete fetch. -/
theorem fetch_event_current_matches_channel_witness :
    ∃ ev : AppEventEarningsChanged,
      mockStateA.published = RepoState.published ⟨[], []⟩ ++ [ev] ∧
      ev.Current = { LifetimeBalance := mockChannelA.balance,
                     UnsettledBalance := mockChannelA.availableBalance } ∧
      ev.Identity = "0x01" :=
  fetch_event_current_matches_channel mockRepoA ⟨[], []⟩ "0x01" "0x02"
    mockChannelA mockStateA (by rfl)

/-- Witness for C7 on the second concrete fetch, whose starting cache is
non-empty. -/
theorem fetch_publishes_exactly_one_event_witness :
    mockStateB.published = mockStateA.published ++
      [{ Identity := "0x01", Previous := cacheGet mockStateA.cache ("0x01", "0x02"),
         Current := earningsOf mockChannelB }] ∧
    cacheFind mockStateB.cache ("0x01", "0x02") = some (earningsOf mockChannelB) :=
  fetch_publishes_exactly_one_event mockRepoB mockStateA "0x01" "0x02"
    mockChannelB mockStateB (by rfl)

/-! ## Claim theorems: session manager -/

/-- C1: Create with a proposal ID different from the current proposal's
returns ErrorInvalidProposal and the zero-value Session, the store is
unchanged and no session ID is consumed from the generator. -/
theorem create_rejects_invalid_proposal (m : Manager) (store : SessionStore)
    (consumerID providerID : Identity) (proposalID : Int) (recv : Bool)
    (h : proposalID ≠ m.currentProposal.ID) :
    m.Create store consumerID providerID proposalID recv =
      some { session := Session.zeroValue, err := some ErrorInvalidProposal,
             store := store, idConsumed := false } := by
  unfold Manager.Create
  rw [if_neg h]

/-- The manager of the unit tests: current proposal 68, generator returning
the fixed ID mocked-id, tracker factory returning a tracker whose Start
keeps watching. -/
def mockManager : Manager :=
  { currentProposal := { ID := 68 },
    generateID := Except.ok "mocked-id",
    trackerFactory := fun _ _ _ => Except.ok { startErr := none } }

/-- Witness for C1: proposal ID 69 against current proposal 68. -/
theorem create_rejects_invalid_proposal_witness :
    mockManager.Create [] "deadbeef" "deadbeef" 69 false =
      some { session := Session.zeroValue, err := some ErrorInvalidProposal,
             store := [], idConsumed := false } :=
  create_rejects_invalid_proposal mockManager [] "deadbeef" "deadbeef" 69 false
    (by decide)

/-- C2: Create with the current proposal's ID, a generator succeeding with
newID and a tracker factory that succeeds returns no error and a Session
with that ID and the given consumer identity, and the session is retrievable
from the resulting store by that ID. -/
theorem create_stores_session (m : Manager) (store : SessionStore)
    (consumerID providerID : Identity) (proposalID : Int) (recv : Bool)
    (newID : SessionID) (tracker : BalanceTracker)
    (hprop : proposalID = m.currentProposal.ID)
    (hgen : m.generateID = Except.ok newID)
    (hfac : m.trackerFactory consumerID providerID consumerID = Except.ok tracker) :
    ∃ out : CreateOutcome,
      m.Create store consumerID providerID proposalID recv = some out ∧
      out.err = none ∧
      out.session.ID = newID ∧
      out.session.ConsumerID = consumerID ∧
      storeGet out.store newID = some out.session := by
  have hts : trySendShutdown recv = some recv := by
    cases recv <;> rfl
  unfold Manager.Create
  rw [if_pos hprop, hgen, hfac, hts]
  refine ⟨_, rfl, rfl, rfl, rfl, ?_⟩
  simp [storeGet, storePut]

/-- Witness for C2: the test scenario, proposal 68, generator output
mocked-id, consumer deadbeef. -/
theorem create_stores_session_witness :
    ∃ out : CreateOutcome,
      mockManager.Create [] "deadbeef" "deadbeef" 68 false = some out ∧
      out.err = none ∧
      out.session.ID = "mocked-id" ∧
      out.session.ConsumerID = "deadbeef" ∧
      storeGet out.store "mocked-id" = some out.session :=
  create_stores_session mockManager [] "deadbeef" "deadbeef" 68 false
    "mocked-id" { startErr := none } (by decide) (by rfl) (by rfl)

/-- C8: when the tracker obtained from the factory fails its Start
immediately, Create still returns the Session without an error, and that
session's Done completion signal has already fired. -/
theorem create_decouples_tracker_start_failure (m : Manager) (store : SessionStore)
    (consumerID providerID : Identity) (proposalID : Int) (recv : Bool)
    (newID : SessionID) (e : Err)
    (hprop : proposalID = m.currentProposal.ID)
    (hgen : m.generateID = Except.ok newID)
    (hfac : m.trackerFactory consumerID providerID consumerID =
      Except.ok { startErr := some e }) :
    ∃ out : CreateOutcome,
      m.Create store consumerID providerID proposalID recv = some out ∧
      out.err = none ∧
      out.session.ID = newID ∧
      out.session.DoneClosed = true := by
  have hts : trySendShutdown recv = some recv := by
    cases recv <;> rfl
  unfold Manager.Create
  rw [if_pos hprop, hgen, hfac, hts]
  exact ⟨_, rfl, rfl, rfl, rfl⟩

/-- The test manager with a tracker whose Start fails immediately. -/
def mockFailingTrackerManager : Manager :=
  { currentProposal := { ID := 68 },
    generateID := Except.ok "mocked-id",
    trackerFactory := fun _ _ _ => Except.ok { startErr := some "tracker error" } }

/-- Witness for C8 on the immediately-failing mock tracker. -/
theorem create_decouples_tracker_start_failure_witness :
    ∃ out : CreateOutcome,
      mockFailingTrackerManager.Create [] "deadbeef" "deadbeef" 68 false = some out ∧
      out.err = none ∧
      out.session.ID = "mocked-id" ∧
      out.session.DoneClosed = true :=
  create_decouples_tracker_start_failure mockFailingTrackerManager []
    "deadbeef" "deadbeef" 68 false "mocked-id" "tracker error"
    (by decide) (by rfl) (by rfl)

/-- C10: a bare send on the unbuffered shutdown channel with no receiver
would block forever, yet Create always returns on every path — the
broadcast is a select with a default branch, so no Create call is lost to
the channel. -/
theorem create_never_blocks_on_shutdown_broadcast :
    chanSend false = none ∧
    ∀ (m : Manager) (store : SessionStore) (consumerID providerID : Identity)
      (proposalID : Int) (recv : Bool),
      (m.Create store consumerID providerID proposalID recv).isSome = true := by
  refine ⟨rfl, ?_⟩
  intro m store consumerID providerID proposalID recv
  have hts : trySendShutdown recv = some recv := by
    cases recv <;> rfl
  unfold Manager.Create
  split
  · cases hg : m.generateID with
    | error e => rfl
    | ok newID =>
      cases hf : m.trackerFactory consumerID providerID consumerID with
      | error e => rfl
      | ok tracker => rw [hts]; rfl
  · rfl

end NodeCore
